import Mathlib

/-
Verification of the Nexifit onboarding state machine and scheduling engine.

Shallow embedding of the relevant parts of src/app.py and src/database_pg.py.
Strings are modelled as Lean String (lists of characters); the regular
expressions used by the code are implemented directly as recursive matchers
with Python re semantics (leftmost search, leftmost-first alternation,
greedy quantifiers with backtracking where the pattern requires it).
Times are modelled as seconds since an arbitrary epoch, in the local (IST)
clock used uniformly by the code; sub-second resolution is dropped.
Python truthiness on optional strings (None and "" are falsy) is modelled
by the predicate truthy below.
-/

namespace Nexifit

/-! ### Basic Python-style string helpers -/

/-- ASCII whitespace, as matched by Python str.strip and the regex class \s
(for the ASCII inputs relevant here). -/
def isSpaceChar (c : Char) : Bool :=
  c = ' ' || c = '\t' || c = '\n' || c = '\r' || c = '\x0b' || c = '\x0c'

/-- ASCII lowercasing, modelling str.lower on the ASCII inputs used here. -/
def lowerChar (c : Char) : Char :=
  if 'A' ≤ c ∧ c ≤ 'Z' then Char.ofNat (c.toNat + 32) else c

def lowerL (l : List Char) : List Char := l.map lowerChar

/-- Python str.strip(): drop whitespace from both ends. -/
def stripL (l : List Char) : List Char :=
  ((l.dropWhile isSpaceChar).reverse.dropWhile isSpaceChar).reverse

/-- message.lower().strip() on a Lean string. -/
def pyLowerStrip (s : String) : String :=
  ⟨stripL (lowerL s.data)⟩

/-- Python str.strip() on a Lean string. -/
def pyStrip (s : String) : String :=
  ⟨stripL s.data⟩

/-- Value of a nonempty digit string. -/
def digitsToNat (l : List Char) : Nat :=
  l.foldl (fun a c => a * 10 + (c.toNat - 48)) 0

/-- If p is a literal prefix of l, return the remainder of l. -/
def stripPre : List Char → List Char → Option (List Char)
  | [], l => some l
  | _ :: _, [] => none
  | p :: ps, c :: cs => if p = c then stripPre ps cs else none

/-- Python substring containment (k in s). -/
def containsSubL : List Char → List Char → Bool
  | k, [] => k.isEmpty
  | k, c :: cs =>
    match stripPre k (c :: cs) with
    | some _ => true
    | none => containsSubL k cs

/-- Python truthiness of an optional string: None and "" are falsy. -/
def truthy : Option String → Bool
  | none => false
  | some s => !s.isEmpty

/-- Python `x or d` for an optional string x and a string default d. -/
def pyOr (x : Option String) (d : String) : String :=
  match x with
  | none => d
  | some s => if s.isEmpty then d else s

/-- Python f-string %02d formatting for the small numbers used here. -/
def pad2 (n : Nat) : String :=
  if n < 10 then "0" ++ toString n else toString n

/-- Python int() on the plain decimal strings appearing here
(optional sign then digits; surrounding whitespace is not modelled because
the inputs are already normalized HH:MM pieces). -/
def pyInt? (s : String) : Option Int :=
  match s.data with
  | [] => none
  | '-' :: ds =>
    if ds ≠ [] ∧ ds.all Char.isDigit then some (-(digitsToNat ds : Int)) else none
  | '+' :: ds =>
    if ds ≠ [] ∧ ds.all Char.isDigit then some ((digitsToNat ds : Int)) else none
  | ds =>
    if ds.all Char.isDigit then some ((digitsToNat ds : Int)) else none

/-! ### The deterministic reminder fallback parser (src/app.py lines 1520-1575)

Each Python regex is implemented as a matcher at a fixed position plus a
leftmost search / substitution driver, following re module semantics. -/

/-- Match the pattern `in\s+(\d+)\s*(second|minute|hour|day)s?` at the head of
the list. Returns (amount, base unit as written in group 2, rest after the
match). Greedy quantifiers need no backtracking here because no unit name
starts with a digit or whitespace. -/
def inPatMatch (l : List Char) : Option (Nat × String × List Char) := do
  let r1 ← stripPre "in".data l
  let (sp, r2) := r1.span isSpaceChar
  if sp.isEmpty then none else
  let (ds, r3) := r2.span Char.isDigit
  if ds.isEmpty then none else
  let (_, r4) := r3.span isSpaceChar
  let (u, r5) ←
    match stripPre "second".data r4 with
    | some r => some ("second", r)
    | none =>
      match stripPre "minute".data r4 with
      | some r => some ("minute", r)
      | none =>
        match stripPre "hour".data r4 with
        | some r => some ("hour", r)
        | none =>
          match stripPre "day".data r4 with
          | some r => some ("day", r)
          | none => none
  let r6 := match r5 with
    | 's' :: t => t
    | t => t
  some (digitsToNat ds, u, r6)

/-- re.search for the relative-time pattern: first position where it matches. -/
def inPatSearch : List Char → Option (Nat × String)
  | [] => none
  | c :: cs =>
    match inPatMatch (c :: cs) with
    | some (n, u, _) => some (n, u)
    | none => inPatSearch cs

/-- re.sub of the relative-time pattern by "" (fuel-driven scan; fuel is set
to the list length, enough because every step consumes at least one char). -/
def inPatSubF : Nat → List Char → List Char
  | 0, l => l
  | _ + 1, [] => []
  | f + 1, c :: cs =>
    match inPatMatch (c :: cs) with
    | some (_, _, rest) => inPatSubF f rest
    | none => c :: inPatSubF f cs

def inPatSub (l : List Char) : List Char := inPatSubF l.length l

/-- Tail of the anchored leading-imperative pattern
`^(remind|remind me|set reminder?)\s+(to\s+)?` (src/app.py lines 1534 and
1563): mandatory whitespace, then optionally "to" plus whitespace. -/
def impTail (r : List Char) : Option (List Char) :=
  let (sp, r2) := r.span isSpaceChar
  if sp.isEmpty then none else
  match r2 with
  | 't' :: 'o' :: r3 =>
    let (sp2, r4) := r3.span isSpaceChar
    if sp2.isEmpty then some r2 else some r4
  | _ => some r2

/-- The anchored imperative pattern: alternatives tried in order (Python
leftmost-first alternation), each continuing with impTail; the optional
final r of "set reminder?" is taken greedily and given back if the tail
then fails. -/
def impMatch (l : List Char) : Option (List Char) :=
  ((stripPre "remind".data l).bind impTail) <|>
  ((stripPre "remind me".data l).bind impTail) <|>
  ((stripPre "set reminde".data l).bind fun r =>
    match r with
    | 'r' :: t => (impTail t) <|> (impTail r)
    | _ => impTail r)

/-- The anchored sub: replace the leading imperative if it matches, else
leave the string unchanged. -/
def impSub (l : List Char) : List Char :=
  match impMatch l with
  | some rest => rest
  | none => l

/-- Match `at\s+(\d{1,2}):(\d{2})\s*(am|pm)?` at the head of the list.
The greedy `\d{1,2}` backtracks from two digits to one if the mandatory
colon does not follow. Returns (hour digits value, minute digits value,
meridiem, rest after the match). -/
def atPatMatch (l : List Char) : Option (Nat × Nat × Option String × List Char) := do
  let r1 ← stripPre "at".data l
  let (sp, r2) := r1.span isSpaceChar
  if sp.isEmpty then none else
  match r2 with
  | d1 :: rest1 =>
    if !d1.isDigit then none else
    let hmRest : Option (Nat × List Char) :=
      match rest1 with
      | d2 :: ':' :: rest2 =>
        if d2.isDigit then some (digitsToNat [d1, d2], rest2)
        else match rest1 with
          | ':' :: rest2b => some (digitsToNat [d1], rest2b)
          | _ => none
      | ':' :: rest2 => some (digitsToNat [d1], rest2)
      | _ => none
    match hmRest with
    | none => none
    | some (h, r3) =>
      match r3 with
      | m1 :: m2 :: r4 =>
        if m1.isDigit ∧ m2.isDigit then
          let (_, r5) := r4.span isSpaceChar
          match stripPre "am".data r5 with
          | some r6 => some (h, digitsToNat [m1, m2], some "am", r6)
          | none =>
            match stripPre "pm".data r5 with
            | some r6 => some (h, digitsToNat [m1, m2], some "pm", r6)
            | none => some (h, digitsToNat [m1, m2], none, r5)
        else none
      | _ => none
  | [] => none

/-- re.search for the absolute-time pattern. -/
def atPatSearch : List Char → Option (Nat × Nat × Option String)
  | [] => none
  | c :: cs =>
    match atPatMatch (c :: cs) with
    | some (h, m, mer, _) => some (h, m, mer)
    | none => atPatSearch cs

/-- re.sub of the absolute-time pattern by "". -/
def atPatSubF : Nat → List Char → List Char
  | 0, l => l
  | _ + 1, [] => []
  | f + 1, c :: cs =>
    match atPatMatch (c :: cs) with
    | some (_, _, _, rest) => atPatSubF f rest
    | none => c :: atPatSubF f cs

def atPatSub (l : List Char) : List Char := atPatSubF l.length l

/-- Meridiem adjustment shared by the absolute branch (lines 1557-1560)
and normalize_workout_time (lines 973-977). -/
def applyMeridiem (hour : Nat) (mer : Option String) : Nat :=
  match mer with
  | some m =>
    if m = "pm" ∧ hour ≠ 12 then hour + 12
    else if m = "am" ∧ hour = 12 then 0
    else hour
  | none => hour

/-- now.replace(hour, minute, second=0, microsecond=0) followed by the
roll-forward to the next day when the result is in the past
(lines 1566-1569); time is seconds since epoch on the local clock. -/
def rollForward (now : Nat) (hour minute : Nat) : Nat :=
  let r := now / 86400 * 86400 + (hour * 3600 + minute * 60)
  if r < now then r + 86400 else r

/-- Seconds added by the relative branch (lines 1538-1545): the code tests
substring containment of the singular unit name in unit = group2 + "s". -/
def relSeconds (amount : Nat) (unitBase : String) : Nat :=
  let unit := unitBase ++ "s"
  if containsSubL "second".data unit.data then amount
  else if containsSubL "minute".data unit.data then amount * 60
  else if containsSubL "hour".data unit.data then amount * 3600
  else amount * 86400

/-- parse_reminder_fallback (src/app.py lines 1520-1575).  The reference
time now (seconds since epoch, local clock) replaces the datetime.now(IST)
calls inside the function. -/
def parse_reminder_fallback (message : String) (now : Nat) : Option (String × Nat) :=
  let msg := pyLowerStrip message
  match inPatSearch msg.data with
  | some (amount, unitBase) =>
    let t1 := inPatSub msg.data
    let t2 := impSub t1
    let task := pyStrip ⟨t2⟩
    let task := if task.isEmpty then "Your reminder" else task
    some (task, now + relSeconds amount unitBase)
  | none =>
    match atPatSearch msg.data with
    | some (h0, m0, mer) =>
      let hour := applyMeridiem h0 mer
      let t1 := atPatSub msg.data
      let t2 := impSub t1
      let task := pyStrip ⟨t2⟩
      let task := if task.isEmpty then "Your reminder" else task
      some (task, rollForward now hour m0)
    | none => none

/-! ### normalize_workout_time (src/database_pg.py lines 957-995) -/

/-- Match `(\d{1,2})(?::(\d{2}))?\s*(am|pm)?` at the head of the list:
one or two digits (greedy), then optionally a colon followed by exactly two
digits, then whitespace, then an optional meridiem.  The wholly optional
tail means a match succeeds at any position starting with a digit, so the
greedy digit take never needs to backtrack. -/
def timePatMatch (l : List Char) : Option (Nat × Option Nat × Option String) :=
  match l with
  | d1 :: rest1 =>
    if !d1.isDigit then none else
    let hRest : Nat × List Char :=
      match rest1 with
      | d2 :: rest2 => if d2.isDigit then (digitsToNat [d1, d2], rest2) else (digitsToNat [d1], rest1)
      | [] => (digitsToNat [d1], [])
    let (h, r2) := hRest
    let mRest : Option Nat × List Char :=
      match r2 with
      | ':' :: m1 :: m2 :: r3 =>
        if m1.isDigit ∧ m2.isDigit then (some (digitsToNat [m1, m2]), r3) else (none, r2)
      | _ => (none, r2)
    let (m, r4) := mRest
    let (_, r5) := r4.span isSpaceChar
    match stripPre "am".data r5 with
    | some _ => some (h, m, some "am")
    | none =>
      match stripPre "pm".data r5 with
      | some _ => some (h, m, some "pm")
      | none => some (h, m, none)
  | [] => none

/-- re.search for the time pattern of normalize_workout_time. -/
def timePatSearch : List Char → Option (Nat × Option Nat × Option String)
  | [] => none
  | c :: cs =>
    match timePatMatch (c :: cs) with
    | some r => some r
    | none => timePatSearch cs

/-- The preset_times dict (lines 982-989), in insertion order. -/
def preset_times : List (String × String) :=
  [("early morning", "05:00"), ("morning", "07:00"), ("afternoon", "14:00"),
   ("evening", "18:00"), ("night", "20:00"), ("flexible", "07:00")]

/-- The for loop over preset_times (lines 991-993) followed by the final
default return (line 995). -/
def findPreset : List (String × String) → String → String
  | [], _ => "07:00"
  | (k, v) :: rest, ts => if containsSubL k.data ts.data then v else findPreset rest ts

/-- normalize_workout_time (src/database_pg.py lines 957-995).  The input is
an optional string; None and "" are falsy and give the default. -/
def normalize_workout_time (time_str : Option String) : String :=
  if !truthy time_str then "07:00"
  else
    let ts := pyLowerStrip (time_str.getD "")
    match timePatSearch ts.data with
    | some (h0, m0, mer) =>
      let hour := applyMeridiem h0 mer
      let minute := m0.getD 0
      if hour ≤ 23 ∧ minute ≤ 59 then pad2 hour ++ ":" ++ pad2 minute
      else findPreset preset_times ts
    | none => findPreset preset_times ts

/-- A well-formed schedule time: HH:MM with 0 ≤ HH ≤ 23 and 0 ≤ MM ≤ 59,
zero-padded to two digits, as produced by the f-string at line 980. -/
def validHHMM (s : String) : Prop :=
  ∃ h m : Nat, h ≤ 23 ∧ m ≤ 59 ∧ s = pad2 h ++ ":" ++ pad2 m

/-! ### The scheduler registry and daily-plan registration
(src/app.py lines 796-914, src/database_pg.py lines 1023-1037) -/

/-- One APScheduler job registration as produced by scheduler.add_job at
lines 835-846: cron-daily trigger with hour, minute, a named timezone
string, the target user, and the misfire grace time in seconds. -/
structure Job where
  id : String
  hour : Int
  minute : Int
  tz : String
  target : String
  graceSec : Nat
deriving DecidableEq

/-- The process-wide scheduler: running flag plus the registry of jobs.
APScheduler keys jobs by id; the registration operations below preserve
at-most-one-job-per-id. -/
structure SchedState where
  running : Bool
  jobs : List Job
deriving DecidableEq

/-- scheduler.remove_job(job_id): drop the registration under that id
(the Python call raises when the id is absent, and the caller swallows
that exception, so removal of a missing id is a no-op here). -/
def removeJob (jobs : List Job) (jid : String) : List Job :=
  jobs.filter (fun j => j.id ≠ jid)

/-- scheduler.add_job(..., id, replace_existing=True): replace any
registration under the same id atomically. -/
def addJobReplace (jobs : List Job) (j : Job) : List Job :=
  (jobs.filter (fun x => x.id ≠ j.id)) ++ [j]

/-- The daily-plan job id (line 825): derived from the identity alone.
phone_number.replace(':', '_') is a single-character replacement, i.e. a
character map. -/
def dailyJobId (phone : String) : String :=
  "daily_workout_" ++ ⟨phone.data.map (fun c => if c = ':' then '_' else c)⟩

/-- Python str.split(sep) for a one-character separator: split at every
occurrence, keeping empty fields. -/
def splitOnChar (sep : Char) (l : List Char) : List (List Char) :=
  l.foldr
    (fun c acc =>
      match acc with
      | [] => [[c]]
      | g :: gs => if c = sep then [] :: g :: gs else (c :: g) :: gs)
    [[]]

/-- hour, minute = map(int, preferred_time.split(':')) — two colon-separated
fields, each parsed by int(); anything else raises and the caller returns
False. -/
def parseHM (s : String) : Option (Int × Int) :=
  match splitOnChar ':' s.data with
  | [a, b] =>
    match pyInt? ⟨a⟩, pyInt? ⟨b⟩ with
    | some h, some m => some (h, m)
    | _, _ => none
  | _ => none

/-- schedule_user_daily_workout (src/app.py lines 796-861): validate the
time, derive the deterministic job id, remove any existing job under it,
and register the cron-daily trigger with the fixed timezone string
Asia/Kolkata and a 300 second misfire grace time.  Returns the new
scheduler state and the boolean result.  The update_schedule_job_id
database write and the log prints carry no information used by any claim
and are not modelled. -/
def schedule_user_daily_workout (st : SchedState) (phone preferred_time : String) :
    SchedState × Bool :=
  if !st.running then (st, false)
  else
    match parseHM preferred_time with
    | none => (st, false)
    | some (h, m) =>
      if 0 ≤ h ∧ h ≤ 23 ∧ 0 ≤ m ∧ m ≤ 59 then
        let jid := dailyJobId phone
        let jobs1 := removeJob st.jobs jid
        let jobs2 := addJobReplace jobs1
          { id := jid, hour := h, minute := m, tz := "Asia/Kolkata",
            target := phone, graceSec := 300 }
        ({ st with jobs := jobs2 }, true)
      else (st, false)

/-- One row of the daily_workout_schedule table joined with
authorized_users (src/database_pg.py lines 938-948 and 1023-1037).
The timezone column exists in the table (default Asia/Kolkata) but is
not selected by get_all_scheduled_users. -/
structure ScheduleRecord where
  phone_number : String
  preferred_time : String
  timezone : String
  job_id : Option String
  active : Bool
  name : String
  authorized : Bool
deriving DecidableEq

/-- get_all_scheduled_users (src/database_pg.py lines 1023-1037): project
phone_number, preferred_time, job_id and name of the active, authorized
rows; the stored timezone column is not part of the projection. -/
def get_all_scheduled_users (db : List ScheduleRecord) :
    List (String × String × Option String × String) :=
  (db.filter (fun r => r.active && r.authorized)).map
    (fun r => (r.phone_number, r.preferred_time, r.job_id, r.name))

/-- reschedule_all_daily_workouts (src/app.py lines 864-914): re-register a
daily job for every record returned by get_all_scheduled_users; a failed
registration of one user leaves the state unchanged for that user and
processing continues. -/
def reschedule_all_daily_workouts (st : SchedState) (db : List ScheduleRecord) :
    SchedState :=
  (get_all_scheduled_users db).foldl
    (fun acc u => (schedule_user_daily_workout acc u.1 u.2.1).1) st

/-! ### The LLM reminder path and its confidence gate
(src/app.py lines 1388-1517 and 1578-1598)

The LLM call itself is an external capability; its outcome is modelled as
an optional already-parsed JSON object: none covers every failure before
json.loads succeeds (capability error, malformed JSON), some d is a
successfully parsed object with the fields the code reads.  The
confidence float is modelled as a rational. -/

structure LlmParsed where
  /-- parsed_data.get("task", "") before stripping; none when absent. -/
  task : Option String
  time_type : Option String
  /-- relative_amount; a JSON 0 is falsy in the `if amount and unit` test. -/
  relative_amount : Option Nat
  relative_unit : Option String
  absolute_hour : Option Nat
  /-- parsed_data.get("absolute_minute", 0): absence is modelled as 0. -/
  absolute_minute : Nat
  is_tomorrow : Bool
  /-- parsed_data.get("confidence", 0): absence is modelled as 0. -/
  confidence : ℚ
deriving DecidableEq

/-- parse_reminder_with_llm (src/app.py lines 1388-1517) given the parsed
LLM output (or none for any failure up to and including json.loads) and
the reference time in seconds on the local clock.  A replace() call with
an out-of-range hour or minute raises ValueError, which the outer except
turns into (None, None). -/
def parse_reminder_with_llm (parsed : Option LlmParsed) (now : Nat) :
    Option (String × Nat) :=
  match parsed with
  | none => none
  | some d =>
    if d.confidence < 1/2 then none
    else
      let task := pyStrip (d.task.getD "")
      if task.length < 2 then none
      else
        let rt : Option Nat :=
          if d.time_type = some "relative" then
            match d.relative_amount, d.relative_unit with
            | some a, some u =>
              if a ≠ 0 ∧ !u.isEmpty then
                if u = "seconds" then some (now + a)
                else if u = "minutes" then some (now + a * 60)
                else if u = "hours" then some (now + a * 3600)
                else if u = "days" then some (now + a * 86400)
                else none
              else none
            | _, _ => none
          else if d.time_type = some "absolute" then
            match d.absolute_hour with
            | some h =>
              if h ≤ 23 ∧ d.absolute_minute ≤ 59 then
                let r := now / 86400 * 86400 + (h * 3600 + d.absolute_minute * 60)
                some (if r < now ∨ d.is_tomorrow then r + 86400 else r)
              else none
            | none => none
          else none
        match rt with
        | none => none
        | some t => some (task, t)

/-- parse_reminder_message (src/app.py lines 1578-1598): LLM first, then
the regex fallback when the LLM path produced no task/time pair.  A task
returned by the LLM path always has length at least 2, so the Python
truthiness test `if task and remind_time` is exactly the some case. -/
def parse_reminder_message (parsed : Option LlmParsed) (message : String)
    (now : Nat) : Option (String × Nat) :=
  match parse_reminder_with_llm parsed now with
  | some r => some r
  | none => parse_reminder_fallback message now

/-! ### The onboarding session and the state-machine steps
(src/app.py whatsapp_webhook)

The session dict of user_sessions[sender] (lines 2843-2871), restricted to
the fields read or written by the embedded branches.  The message history
list is an append-only log consumed only by the LLM capability and is not
modelled. -/

structure Session where
  onboarding_step : String
  name : Option String
  age : Option String
  gender : Option String
  weight : Option String
  height : Option String
  bmi : Option String
  fitness_goal : Option String
  medical_conditions : Option String
  injuries : Option String
  allergies : Option String
  diet_preference : Option String
  activity_level : Option String
  stress_level : Option String
  workout_duration : Option String
  workout_location : Option String
  workout_time : Option String
  exercises_to_avoid : Option String
  profile_completed : Bool
  profile_confirmed : Bool
  /-- the confirmation_attempts key; none while the key is absent. -/
  confirmation_attempts : Option Nat
deriving DecidableEq

/-- session.get(field) or default (the skip-path defaulting idiom). -/
def orDefault (x : Option String) (d : String) : Option String :=
  if truthy x then x else some d

/-- The merge of extracted basic fields into the session (the basic branch
of update_session_from_extracted_data, src/app.py lines 4084-4089): each
field is overwritten only when the extracted value is truthy. -/
def basicMergeStep (sess : Session) (name age gender : Option String) : Session :=
  { sess with
    name := if truthy name then name else sess.name,
    age := if truthy age then age else sess.age,
    gender := if truthy gender then gender else sess.gender }

/-- The merge of extracted personalize fields into the session
(src/app.py lines 2947-2952): each field is overwritten only when the
extracted value is truthy. -/
def personalizeMergeStep (sess : Session) (weight height fitness_goal : Option String) :
    Session :=
  { sess with
    weight := if truthy weight then weight else sess.weight,
    height := if truthy height then height else sess.height,
    fitness_goal := if truthy fitness_goal then fitness_goal else sess.fitness_goal }

/-- The health-stage update (src/app.py lines 3021-3023): each field is
overwritten unconditionally with the extracted value or "None" — this
merge is NOT truthiness-guarded. -/
def healthUpdateStep (sess : Session) (medical injuries allergies : Option String) :
    Session :=
  { sess with
    medical_conditions := some (pyOr medical "None"),
    injuries := some (pyOr injuries "None"),
    allergies := some (pyOr allergies "None") }

/-- The merge of extracted lifestyle fields into the session
(src/app.py lines 3081-3086): each field is overwritten only when the
extracted value is truthy. -/
def lifestyleMergeStep (sess : Session) (diet activity stress : Option String) :
    Session :=
  { sess with
    diet_preference := if truthy diet then diet else sess.diet_preference,
    activity_level := if truthy activity then activity else sess.activity_level,
    stress_level := if truthy stress then stress else sess.stress_level }

/-- The record extracted by extract_workout_prefs for one utterance. -/
structure WorkoutExtract where
  workout_duration : Option String
  workout_location : Option String
  workout_time : Option String
  exercises_to_avoid : Option String
deriving DecidableEq

/-- The reply sent by the workout_prefs branch. -/
inductive PrefsReply
  | skipAck
  | backToPersonalize (missing : List String)
  | profileSummary
  | missingPrompt (missing : List String)
deriving DecidableEq

/-- Result of one workout_prefs turn: the new session, whether
save_user_profile was called, whether the skip-path plan-generation
thread was spawned, and the reply. -/
structure PrefsResult where
  session : Session
  savedProfile : Bool
  skipPlanThread : Bool
  reply : PrefsReply
deriving DecidableEq

/-- The merge of one workout_prefs extraction into the session
(src/app.py lines 3147-3160): duration, location and time are merged only
when truthy, exercises_to_avoid is overwritten unconditionally with the
extracted value or "None", and a falsy workout_time then defaults to
"Flexible". -/
def workoutPrefsMerge (sess : Session) (wd : WorkoutExtract) : Session :=
  let s1 :=
    { sess with
      workout_duration :=
        if truthy wd.workout_duration then wd.workout_duration else sess.workout_duration,
      workout_location :=
        if truthy wd.workout_location then wd.workout_location else sess.workout_location,
      workout_time :=
        if truthy wd.workout_time then wd.workout_time else sess.workout_time,
      exercises_to_avoid := some (pyOr wd.exercises_to_avoid "None") }
  if !truthy s1.workout_time then { s1 with workout_time := some "Flexible" } else s1

/-- One turn of the workout_prefs stage (src/app.py lines 3124-3290).
incoming is the raw utterance; wd is the extraction result, consumed only
on the non-skip path.  The skip path (lines 3128-3141) applies defaults
and spawns handle_skip_and_generate_plan on a detached thread; the
mutations that thread performs asynchronously (stage done, completed and
confirmed true at lines 2129-2131) are represented solely by the
skipPlanThread flag.  Lines 3292-3323 sit after an unconditional return
and are unreachable, so they are not modelled. -/
def workoutPrefsStep (sess : Session) (incoming : String) (wd : WorkoutExtract) :
    PrefsResult :=
  if pyLowerStrip incoming = "skip" then
    { session :=
        { sess with
          workout_duration := orDefault sess.workout_duration "30 minutes",
          workout_location := orDefault sess.workout_location "Home",
          workout_time := orDefault sess.workout_time "Flexible",
          exercises_to_avoid := orDefault sess.exercises_to_avoid "None" },
      savedProfile := false, skipPlanThread := true, reply := .skipAck }
  else
    let s2 := workoutPrefsMerge sess wd
    if truthy s2.workout_duration ∧ truthy s2.workout_location then
      let missing_critical :=
        (if !truthy s2.weight then ["weight"] else []) ++
        (if !truthy s2.height then ["height"] else []) ++
        (if !truthy s2.fitness_goal then ["fitness goal"] else [])
      if missing_critical ≠ [] then
        { session := { s2 with onboarding_step := "personalize" },
          savedProfile := false, skipPlanThread := false,
          reply := .backToPersonalize missing_critical }
      else
        { session :=
            { s2 with onboarding_step := "done",
                      profile_completed := true, profile_confirmed := false },
          savedProfile := true, skipPlanThread := false, reply := .profileSummary }
    else
      let missing :=
        (if !truthy s2.workout_duration then ["duration"] else []) ++
        (if !truthy s2.workout_location then ["location"] else [])
      { session := s2, savedProfile := false, skipPlanThread := false,
        reply := .missingPrompt missing }

/-! ### The profile confirmation sub-protocol
(src/app.py lines 3380-3501)

This block runs inside the done stage for a message that contained no
reminder keyword, when profile_completed is true and profile_confirmed is
false (the guard at line 3380); the theorems below carry these context
conditions as hypotheses. -/

/-- The affirmative replies of line 3385. -/
def yesReplies : List String :=
  ["yes", "yeah", "yep", "correct", "right", "ok", "okay", "confirm"]

/-- The negative replies of line 3456. -/
def noReplies : List String :=
  ["no", "nope", "change", "incorrect", "wrong"]

/-- The reply sent by the confirmation handler. -/
inductive ConfirmReply
  | missingCritical (missing : List String)
  | confirmedMsg (scheduledAt : Option String)
  | correctionPrompt
  | autoConfirm
  | rePrompt
deriving DecidableEq

/-- Result of one confirmation turn: the new session, the scheduler state,
whether mark_profile_completed was called, whether the plan-generation
background thread was spawned, and the reply. -/
structure ConfirmResult where
  session : Session
  sched : SchedState
  markedCompleted : Bool
  planThread : Bool
  reply : ConfirmReply
deriving DecidableEq

/-- One turn of the confirmation handler (src/app.py lines 3380-3501).
dbProfile is the get_user_profile(sender) read of the yes branch: none
when no durable profile row exists, some wt for a row whose workout_time
is wt.  Lines 3447-3454 sit after an unconditional return and are
unreachable, so they are not modelled. -/
def confirmStep (sess : Session) (incoming : String)
    (dbProfile : Option (Option String)) (sched : SchedState) (sender : String) :
    ConfirmResult :=
  let msgLower := pyLowerStrip incoming
  let sess0 :=
    if sess.confirmation_attempts = none then
      { sess with confirmation_attempts := some 0 }
    else sess
  if msgLower ∈ yesReplies then
    let s1 := { sess0 with profile_confirmed := true, confirmation_attempts := some 0 }
    let missing :=
      (if !truthy s1.weight then ["weight"] else []) ++
      (if !truthy s1.height then ["height"] else []) ++
      (if !truthy s1.fitness_goal then ["fitness goal"] else [])
    if missing ≠ [] then
      { session := { s1 with onboarding_step := "personalize", profile_confirmed := false },
        sched := sched, markedCompleted := false, planThread := false,
        reply := .missingCritical missing }
    else
      let schedAndTime : SchedState × Option String :=
        match dbProfile with
        | some wt =>
          if truthy wt then
            let normalized := normalize_workout_time wt
            if !normalized.isEmpty then
              let r := schedule_user_daily_workout sched sender normalized
              if r.2 then (r.1, some normalized) else (r.1, none)
            else (sched, none)
          else (sched, none)
        | none => (sched, none)
      { session := s1, sched := schedAndTime.1, markedCompleted := true,
        planThread := true, reply := .confirmedMsg schedAndTime.2 }
  else if msgLower ∈ noReplies then
    { session := { sess0 with confirmation_attempts := some 0, profile_confirmed := true },
      sched := sched, markedCompleted := false, planThread := false,
      reply := .correctionPrompt }
  else
    let att := sess0.confirmation_attempts.getD 0 + 1
    if att ≥ 3 then
      { session := { sess0 with profile_confirmed := true, confirmation_attempts := some 0 },
        sched := sched, markedCompleted := true, planThread := true,
        reply := .autoConfirm }
    else
      { session := { sess0 with confirmation_attempts := some att },
        sched := sched, markedCompleted := false, planThread := false,
        reply := .rePrompt }

/-! ### Helper lemmas -/

/-- The preset fallback of normalize_workout_time only returns well-formed
HH:MM strings. -/
theorem findPreset_valid (ts : String) : validHHMM (findPreset preset_times ts) := by
  have h5 : validHHMM "05:00" := ⟨5, 0, by norm_num, by norm_num, by decide⟩
  have h7 : validHHMM "07:00" := ⟨7, 0, by norm_num, by norm_num, by decide⟩
  have h14 : validHHMM "14:00" := ⟨14, 0, by norm_num, by norm_num, by decide⟩
  have h18 : validHHMM "18:00" := ⟨18, 0, by norm_num, by norm_num, by decide⟩
  have h20 : validHHMM "20:00" := ⟨20, 0, by norm_num, by norm_num, by decide⟩
  simp only [preset_times, findPreset]
  split_ifs <;> assumption

/-- schedule_user_daily_workout never changes the running flag. -/
theorem schedule_running_invariant (st : SchedState) (p t : String) :
    (schedule_user_daily_workout st p t).1.running = st.running := by
  unfold schedule_user_daily_workout
  split
  · rfl
  · split
    · rfl
    · split <;> rfl

/-- Any job present after a registration was either already registered or
is the daily-plan job of the given identity, carrying the fixed timezone
and grace period. -/
theorem mem_schedule_jobs {st : SchedState} {p t : String} {j : Job}
    (hj : j ∈ (schedule_user_daily_workout st p t).1.jobs) :
    j ∈ st.jobs ∨
      (j.id = dailyJobId p ∧ j.tz = "Asia/Kolkata" ∧ j.graceSec = 300) := by
  unfold schedule_user_daily_workout at hj
  split at hj
  · exact Or.inl hj
  · split at hj
    · exact Or.inl hj
    · split at hj
      · simp only [addJobReplace, removeJob, List.mem_append, List.mem_filter,
          List.mem_singleton] at hj
        rcases hj with ⟨⟨hmem, _⟩, _⟩ | hj
        · exact Or.inl hmem
        · subst hj
          exact Or.inr ⟨rfl, rfl, rfl⟩
      · exact Or.inl hj

/-- Filtering for an id right after that id was removed yields nothing. -/
theorem filter_removeJob_self (jobs : List Job) (jid : String) :
    (removeJob jobs jid).filter (fun j => j.id = jid) = [] := by
  unfold removeJob
  induction jobs with
  | nil => rfl
  | cons a l ih =>
    by_cases h : a.id = jid <;> simp [h, ih]

/-- After addJobReplace, the sole registration under the new id is the new
job. -/
theorem filter_addJobReplace_self (jobs : List Job) (j : Job) :
    (addJobReplace jobs j).filter (fun x => x.id = j.id) = [j] := by
  unfold addJobReplace
  induction jobs with
  | nil => simp
  | cons a l ih =>
    by_cases h : a.id = j.id <;> simp [h, ih]

/-- A successful registration rewrites the job list as
remove-then-add of the daily job. -/
theorem schedule_success_jobs (st : SchedState) (p t : String) (h m : Int)
    (hrun : st.running = true) (hp : parseHM t = some (h, m))
    (hh : 0 ≤ h ∧ h ≤ 23) (hm : 0 ≤ m ∧ m ≤ 59) :
    schedule_user_daily_workout st p t =
      (SchedState.mk st.running
        (addJobReplace (removeJob st.jobs (dailyJobId p))
          ⟨dailyJobId p, h, m, "Asia/Kolkata", p, 300⟩), true) := by
  simp [schedule_user_daily_workout, hrun, hp, hh.1, hh.2, hm.1, hm.2]

/-- C1: the daily-plan job id is a deterministic function of the identity
alone (dailyJobId takes only the phone number; no timestamp enters it),
and registering a daily workout job twice for the same identity — with
possibly different times — leaves exactly one registered job under that
id, whose trigger carries the second registration's hour and minute.
Every job the two registrations may add lives under that identity's id. -/
theorem daily_job_reregistration_replaces (st : SchedState) (phone t1 t2 : String)
    (h m : Int) (hrun : st.running = true) (hp : parseHM t2 = some (h, m))
    (hh : 0 ≤ h ∧ h ≤ 23) (hm : 0 ≤ m ∧ m ≤ 59) :
    (((schedule_user_daily_workout
        (schedule_user_daily_workout st phone t1).1 phone t2).1.jobs.filter
          (fun j => j.id = dailyJobId phone)) =
      [⟨dailyJobId phone, h, m, "Asia/Kolkata", phone, 300⟩]) ∧
    (∀ j ∈ (schedule_user_daily_workout
        (schedule_user_daily_workout st phone t1).1 phone t2).1.jobs,
      j ∈ st.jobs ∨ j.id = dailyJobId phone) := by
  have hrun1 : (schedule_user_daily_workout st phone t1).1.running = true := by
    rw [schedule_running_invariant]; exact hrun
  have hstep := schedule_success_jobs (schedule_user_daily_workout st phone t1).1
    phone t2 h m hrun1 hp hh hm
  constructor
  · rw [hstep]
    exact filter_addJobReplace_self
      (removeJob (schedule_user_daily_workout st phone t1).1.jobs (dailyJobId phone))
      ⟨dailyJobId phone, h, m, "Asia/Kolkata", phone, 300⟩
  · intro j hj
    rw [hstep] at hj
    simp only [addJobReplace, removeJob, List.mem_append, List.mem_filter,
      List.mem_singleton] at hj
    rcases hj with ⟨⟨hmem, _⟩, _⟩ | hj
    · rcases mem_schedule_jobs hmem with h1 | h1
      · exact Or.inl h1
      · exact Or.inr h1.1
    · subst hj
      exact Or.inr rfl

/-- C1 (witness): from an empty running scheduler, registering 06:00 then
07:30 for one phone number leaves exactly the 07:30 job. -/
theorem daily_job_reregistration_replaces_witness :
    (⟨true, []⟩ : SchedState).running = true ∧
    parseHM "07:30" = some (7, 30) ∧
    ((((schedule_user_daily_workout
        (schedule_user_daily_workout ⟨true, []⟩ "whatsapp:+911234567890" "06:00").1
        "whatsapp:+911234567890" "07:30").1.jobs.filter
          (fun j => j.id = dailyJobId "whatsapp:+911234567890")) =
      [⟨dailyJobId "whatsapp:+911234567890", 7, 30,
        "Asia/Kolkata", "whatsapp:+911234567890", 300⟩]) ∧
    (∀ j ∈ (schedule_user_daily_workout
        (schedule_user_daily_workout ⟨true, []⟩ "whatsapp:+911234567890" "06:00").1
        "whatsapp:+911234567890" "07:30").1.jobs,
      j ∈ (⟨true, []⟩ : SchedState).jobs ∨ j.id = dailyJobId "whatsapp:+911234567890")) :=
  ⟨rfl, by decide,
   daily_job_reregistration_replaces ⟨true, []⟩ "whatsapp:+911234567890" "06:00" "07:30"
     7 30 rfl (by decide) (by decide) (by decide)⟩

/-- Jobs produced by folding registrations over a user list keep the fixed
timezone, whatever the records say. -/
theorem mem_reschedule_fold {users : List (String × String × Option String × String)}
    {st : SchedState} {j : Job}
    (hj : j ∈ (users.foldl
        (fun acc u => (schedule_user_daily_workout acc u.1 u.2.1).1) st).jobs) :
    j ∈ st.jobs ∨ j.tz = "Asia/Kolkata" := by
  induction users generalizing st with
  | nil => exact Or.inl hj
  | cons u rest ih =>
    simp only [List.foldl_cons] at hj
    rcases ih hj with h1 | h1
    · rcases mem_schedule_jobs h1 with h2 | h2
      · exact Or.inl h2
      · exact Or.inr h2.2.1
    · exact Or.inr h1

/-- C9 (counterexample): a durable schedule record whose stored timezone is
America/New_York is re-registered at startup recovery with the fixed
timezone Asia/Kolkata — the stored named timezone is not used (it is not
even selected by get_all_scheduled_users). -/
theorem recovery_ignores_stored_timezone :
    ((reschedule_all_daily_workouts ⟨true, []⟩
        [⟨"whatsapp:+14155550100", "07:00", "America/New_York", none, true, "Ava", true⟩]).jobs.map
      Job.tz = ["Asia/Kolkata"]) ∧
    ("Asia/Kolkata" : String) ≠ "America/New_York" := by
  constructor
  · rfl
  · decide

/-- C9 (amended): per-user daily-plan triggers are registered using the
user's local civil time (the hour and minute parsed from the stored
preferred_time) together with the fixed named timezone Asia/Kolkata —
a named zone rather than an absolute UTC offset, but the same one for
every user; the per-user timezone column is ignored.  This holds both at
registration after confirmation and at startup recovery. -/
theorem daily_triggers_use_fixed_named_timezone (st : SchedState) (phone t : String)
    (h m : Int) (db : List ScheduleRecord)
    (hrun : st.running = true) (hp : parseHM t = some (h, m))
    (hh : 0 ≤ h ∧ h ≤ 23) (hm : 0 ≤ m ∧ m ≤ 59) :
    (∃ j ∈ (schedule_user_daily_workout st phone t).1.jobs,
        j.id = dailyJobId phone ∧ j.hour = h ∧ j.minute = m ∧
        j.tz = "Asia/Kolkata") ∧
    (∀ j ∈ (reschedule_all_daily_workouts st db).jobs,
        j ∈ st.jobs ∨ j.tz = "Asia/Kolkata") := by
  constructor
  · rw [schedule_success_jobs st phone t h m hrun hp hh hm]
    exact ⟨⟨dailyJobId phone, h, m, "Asia/Kolkata", phone, 300⟩,
      by simp [addJobReplace], rfl, rfl, rfl, rfl⟩
  · intro j hj
    unfold reschedule_all_daily_workouts at hj
    exact mem_reschedule_fold hj

/-- C9 (amended, witness): one concrete registration and one concrete
recovery, both producing the fixed Asia/Kolkata trigger. -/
theorem daily_triggers_use_fixed_named_timezone_witness :
    ((⟨true, []⟩ : SchedState).running = true ∧ parseHM "06:30" = some (6, 30)) ∧
    ((∃ j ∈ (schedule_user_daily_workout ⟨true, []⟩ "whatsapp:+15550001111" "06:30").1.jobs,
        j.id = dailyJobId "whatsapp:+15550001111" ∧ j.hour = 6 ∧ j.minute = 30 ∧
        j.tz = "Asia/Kolkata") ∧
    (∀ j ∈ (reschedule_all_daily_workouts ⟨true, []⟩
        [⟨"whatsapp:+15550001111", "06:30", "Europe/Paris", none, true, "B", true⟩]).jobs,
        j ∈ (⟨true, []⟩ : SchedState).jobs ∨ j.tz = "Asia/Kolkata")) :=
  ⟨⟨rfl, by decide⟩,
   daily_triggers_use_fixed_named_timezone ⟨true, []⟩ "whatsapp:+15550001111" "06:30"
     6 30 [⟨"whatsapp:+15550001111", "06:30", "Europe/Paris", none, true, "B", true⟩]
     rfl (by decide) (by decide) (by decide)⟩

/-! ### Claim theorems for the state machine -/

/-- C3 (code evaluation at the failing input): the fallback parser on
"remind me to drink water in 30 minutes" returns fire_time now plus
exactly 30 minutes, but task "me to drink water": the alternation
`(remind|remind me|set reminder?)` matches its first alternative "remind"
and never backtracks, so only "remind " is stripped and "me to" survives
in the task, contradicting the documented task "drink water". -/
theorem parse_fallback_drink_water (now : Nat) :
    parse_reminder_fallback "remind me to drink water in 30 minutes" now =
      some ("me to drink water", now + 30 * 60) := rfl

/-- C4 (counterexample): the fallback parser does not recognize
"at 6pm" because its absolute pattern `at\s+(\d{1,2}):(\d{2})\s*(am|pm)?`
makes the minutes mandatory; the claimed result (task "workout",
fire_time 18:00) is not produced — the parse fails outright. -/
theorem parse_fallback_at6pm_fails :
    parse_reminder_fallback "set reminder at 6pm for workout" 0 = none := rfl

/-- C4 (amended): the absolute grammar of the fallback parser requires an
explicit minutes component, `at <H>:<MM>[am|pm]`.  For every reference
time now, "set reminder at 6pm for workout" returns (None, None), while
"set reminder at 6:00pm for workout" parses, yielding fire_time today at
18:00 on the local clock rolled to the next day when now is already past
18:00 — and task "for workout", since only the leading imperative
"set reminder" is stripped and the preposition remains. -/
theorem parse_fallback_at_requires_minutes (now : Nat) :
    parse_reminder_fallback "set reminder at 6pm for workout" now = none ∧
    parse_reminder_fallback "set reminder at 6:00pm for workout" now =
      some ("for workout",
        if now / 86400 * 86400 + 18 * 3600 < now
        then now / 86400 * 86400 + 18 * 3600 + 86400
        else now / 86400 * 86400 + 18 * 3600) :=
  ⟨rfl, rfl⟩

/-- C8: a parseable LLM result whose confidence is below 0.5 is discarded —
parse_reminder_with_llm returns (None, None) even though JSON parsing
succeeded — and parse_reminder_message then invokes the regex fallback on
the same utterance. -/
theorem low_confidence_triggers_fallback (d : LlmParsed) (msg : String) (now : Nat)
    (hconf : d.confidence < 1/2) :
    parse_reminder_with_llm (some d) now = none ∧
    parse_reminder_message (some d) msg now = parse_reminder_fallback msg now := by
  have h1 : parse_reminder_with_llm (some d) now = none := by
    simp only [parse_reminder_with_llm]
    rw [if_pos hconf]
  refine ⟨h1, ?_⟩
  simp only [parse_reminder_message, h1]

/-- C8 (witness): the gate fires at a concrete parsed object with
confidence 0.3 on a concrete utterance. -/
theorem low_confidence_triggers_fallback_witness :
    ((⟨some "drink water", some "relative", some 30, some "minutes",
        none, 0, false, 3/10⟩ : LlmParsed).confidence < 1/2) ∧
    (parse_reminder_with_llm
        (some ⟨some "drink water", some "relative", some 30, some "minutes",
          none, 0, false, 3/10⟩) 0 = none ∧
      parse_reminder_message
        (some ⟨some "drink water", some "relative", some 30, some "minutes",
          none, 0, false, 3/10⟩) "remind me in 5 minutes" 0 =
        parse_reminder_fallback "remind me in 5 minutes" 0) :=
  ⟨by norm_num,
   low_confidence_triggers_fallback _ "remind me in 5 minutes" 0 (by norm_num)⟩

/-- C10: normalize_workout_time is total and always yields a well-formed
HH:MM schedule time (0 ≤ HH ≤ 23, 0 ≤ MM ≤ 59); None and the sentinel
"Flexible" map to the default "07:00", the named period "evening" maps to
"18:00", and an arbitrary unrecognized string maps to "07:00", so a user
with no specific time is still scheduled at a concrete daily send time. -/
theorem normalize_workout_time_total_valid :
    (∀ t : Option String, validHHMM (normalize_workout_time t)) ∧
    normalize_workout_time none = "07:00" ∧
    normalize_workout_time (some "Flexible") = "07:00" ∧
    normalize_workout_time (some "evening") = "18:00" ∧
    normalize_workout_time (some "whenever you like") = "07:00" := by
  refine ⟨?_, rfl, rfl, rfl, rfl⟩
  intro t
  unfold normalize_workout_time
  split
  · exact ⟨7, 0, by norm_num, by norm_num, by decide⟩
  · cases hsearch : timePatSearch (pyLowerStrip (t.getD "")).data with
    | none => simpa [hsearch] using findPreset_valid (pyLowerStrip (t.getD ""))
    | some r =>
      obtain ⟨h0, m0, mer⟩ := r
      simp only [hsearch]
      split
      · rename_i hcond
        exact ⟨applyMeridiem h0 mer, m0.getD 0, hcond.1, hcond.2, rfl⟩
      · exact findPreset_valid (pyLowerStrip (t.getD ""))

/-- The workout_prefs merge touches only the four workout-preference
fields. -/
theorem workoutPrefsMerge_untouched (sess : Session) (wd : WorkoutExtract) :
    (workoutPrefsMerge sess wd).weight = sess.weight ∧
    (workoutPrefsMerge sess wd).height = sess.height ∧
    (workoutPrefsMerge sess wd).fitness_goal = sess.fitness_goal ∧
    (workoutPrefsMerge sess wd).profile_completed = sess.profile_completed ∧
    (workoutPrefsMerge sess wd).onboarding_step = sess.onboarding_step := by
  by_cases h : truthy wd.workout_time = true <;>
    refine ⟨?_, ?_, ?_, ?_, ?_⟩ <;>
      simp [workoutPrefsMerge, h] <;> split <;> rfl

/-- C2: a non-skip workout_prefs turn whose merged session has duration and
location present, while weight, height or fitness_goal is still null,
forces the stage back to personalize, does not call save_user_profile, and
leaves profile_completed unchanged (in particular it is not marked). -/
theorem workout_prefs_backward_guard (sess : Session) (msg : String)
    (wd : WorkoutExtract)
    (hstage : sess.onboarding_step = "workout_prefs")
    (hskip : pyLowerStrip msg ≠ "skip")
    (hnull : sess.weight = none ∨ sess.height = none ∨ sess.fitness_goal = none)
    (hdur : truthy (workoutPrefsMerge sess wd).workout_duration = true)
    (hloc : truthy (workoutPrefsMerge sess wd).workout_location = true) :
    (workoutPrefsStep sess msg wd).session.onboarding_step = "personalize" ∧
    (workoutPrefsStep sess msg wd).savedProfile = false ∧
    (workoutPrefsStep sess msg wd).session.profile_completed = sess.profile_completed := by
  have hw := workoutPrefsMerge_untouched sess wd
  have hmc : ((if !truthy (workoutPrefsMerge sess wd).weight then ["weight"] else []) ++
      (if !truthy (workoutPrefsMerge sess wd).height then ["height"] else []) ++
      (if !truthy (workoutPrefsMerge sess wd).fitness_goal then ["fitness goal"] else []))
        ≠ ([] : List String) := by
    intro hcontra
    rcases hnull with hn | hn | hn
    · rw [hw.1, hn] at hcontra
      simp [truthy] at hcontra
    · rw [hw.2.1, hn] at hcontra
      simp [truthy] at hcontra
    · rw [hw.2.2.1, hn] at hcontra
      simp [truthy] at hcontra
  simp only [workoutPrefsStep]
  rw [if_neg hskip, if_pos ⟨hdur, hloc⟩, if_pos hmc]
  exact ⟨rfl, rfl, hw.2.2.2.1⟩

/-- A session at the workout_prefs stage with weight still null. -/
def sampleNullWeight : Session :=
  ⟨"workout_prefs", some "Riya", some "25", some "F", none, some "160cm", none,
   some "fat loss", some "None", some "None", some "None", some "Veg",
   some "Moderate", some "Low", none, none, none, none, false, false, none⟩

/-- C2 (witness): the guard fires on a concrete session and extraction. -/
theorem workout_prefs_backward_guard_witness :
    (sampleNullWeight.onboarding_step = "workout_prefs" ∧
     pyLowerStrip "45 minutes at home" ≠ "skip" ∧
     sampleNullWeight.weight = none ∧
     truthy (workoutPrefsMerge sampleNullWeight
       ⟨some "45 minutes", some "Home", none, none⟩).workout_duration = true) ∧
    ((workoutPrefsStep sampleNullWeight "45 minutes at home"
        ⟨some "45 minutes", some "Home", none, none⟩).session.onboarding_step =
      "personalize" ∧
     (workoutPrefsStep sampleNullWeight "45 minutes at home"
        ⟨some "45 minutes", some "Home", none, none⟩).savedProfile = false ∧
     (workoutPrefsStep sampleNullWeight "45 minutes at home"
        ⟨some "45 minutes", some "Home", none, none⟩).session.profile_completed =
      sampleNullWeight.profile_completed) :=
  ⟨⟨rfl, by decide, rfl, by decide⟩,
   workout_prefs_backward_guard sampleNullWeight "45 minutes at home"
     ⟨some "45 minutes", some "Home", none, none⟩ rfl (by decide)
     (Or.inl rfl) (by decide) (by decide)⟩

/-- A completed, not yet confirmed session in the done stage. -/
def sampleDone : Session :=
  ⟨"done", some "Arjun", some "27", some "M", some "75kg", some "178cm",
   some "23.7", some "muscle gain", some "None", some "None", some "None",
   some "Veg", some "Active", some "Low", some "30 minutes", some "Home",
   some "evening", some "None", true, false, none⟩

/-- C5 (counterexample): on sampleDone (profile_completed true,
profile_confirmed false), the negative reply "no" produces the correction
prompt but sets profile_confirmed to true (line 3466: "Allow them to
proceed after changes"), so the profile does NOT remain unconfirmed as the
claim states. -/
theorem negative_reply_confirms_profile :
    (confirmStep sampleDone "no" none ⟨true, []⟩ "whatsapp:+911").reply =
      ConfirmReply.correctionPrompt ∧
    (confirmStep sampleDone "no" none ⟨true, []⟩ "whatsapp:+911").session.profile_confirmed
      = true := by
  exact ⟨rfl, rfl⟩

/-- C5 (amended): a negative reply produces the correction prompt, resets
the attempt counter, performs no durable write and no plan generation, and
deliberately sets profile_confirmed to true so that the user's follow-up
change requests flow through the normal done-stage handlers;
profile_completed is untouched. -/
theorem negative_reply_behavior (sess : Session) (msg : String)
    (db : Option (Option String)) (sched : SchedState) (sender : String)
    (hneg : pyLowerStrip msg ∈ noReplies) :
    (confirmStep sess msg db sched sender).reply = ConfirmReply.correctionPrompt ∧
    (confirmStep sess msg db sched sender).session.profile_confirmed = true ∧
    (confirmStep sess msg db sched sender).session.confirmation_attempts = some 0 ∧
    (confirmStep sess msg db sched sender).session.profile_completed =
      sess.profile_completed ∧
    (confirmStep sess msg db sched sender).markedCompleted = false ∧
    (confirmStep sess msg db sched sender).planThread = false ∧
    (confirmStep sess msg db sched sender).sched = sched := by
  have hnyes : pyLowerStrip msg ∉ yesReplies := by
    simp only [noReplies, List.mem_cons, List.not_mem_nil, or_false] at hneg
    rcases hneg with h | h | h | h | h <;> rw [h] <;> decide
  simp only [confirmStep]
  rw [if_neg hnyes, if_pos hneg]
  refine ⟨rfl, rfl, rfl, ?_, rfl, rfl, rfl⟩
  split <;> rfl

/-- C5 (amended, witness): the amended behavior at the concrete session. -/
theorem negative_reply_behavior_witness :
    (pyLowerStrip "no" ∈ noReplies) ∧
    ((confirmStep sampleDone "no" none ⟨true, []⟩ "p").reply =
        ConfirmReply.correctionPrompt ∧
      (confirmStep sampleDone "no" none ⟨true, []⟩ "p").session.profile_confirmed = true ∧
      (confirmStep sampleDone "no" none ⟨true, []⟩ "p").session.confirmation_attempts =
        some 0 ∧
      (confirmStep sampleDone "no" none ⟨true, []⟩ "p").session.profile_completed =
        sampleDone.profile_completed ∧
      (confirmStep sampleDone "no" none ⟨true, []⟩ "p").markedCompleted = false ∧
      (confirmStep sampleDone "no" none ⟨true, []⟩ "p").planThread = false ∧
      (confirmStep sampleDone "no" none ⟨true, []⟩ "p").sched = ⟨true, []⟩) :=
  ⟨by decide, negative_reply_behavior sampleDone "no" none ⟨true, []⟩ "p" (by decide)⟩

/-- An ambiguous reply while the attempts key is still absent: the key is
created, the counter becomes 1, and only a re-prompt happens. -/
theorem confirmStep_ambiguous_first (sess : Session) (msg : String)
    (db : Option (Option String)) (sched : SchedState) (sender : String)
    (hny : pyLowerStrip msg ∉ yesReplies) (hnn : pyLowerStrip msg ∉ noReplies)
    (hA : sess.confirmation_attempts = none) :
    confirmStep sess msg db sched sender =
      ⟨{ sess with confirmation_attempts := some 1 }, sched, false, false,
        ConfirmReply.rePrompt⟩ := by
  simp [confirmStep, hny, hnn, hA]

/-- An ambiguous reply with the counter below the cap: increment and
re-prompt. -/
theorem confirmStep_ambiguous_again (sess : Session) (msg : String)
    (db : Option (Option String)) (sched : SchedState) (sender : String) (k : Nat)
    (hny : pyLowerStrip msg ∉ yesReplies) (hnn : pyLowerStrip msg ∉ noReplies)
    (hA : sess.confirmation_attempts = some k) (hlt : k + 1 < 3) :
    confirmStep sess msg db sched sender =
      ⟨{ sess with confirmation_attempts := some (k + 1) }, sched, false, false,
        ConfirmReply.rePrompt⟩ := by
  have h3 : ¬ (k + 1 ≥ 3) := by omega
  simp [confirmStep, hny, hnn, hA, h3]

/-- An ambiguous reply that reaches the cap: auto-confirm, reset, mark the
durable profile completed, and spawn plan generation. -/
theorem confirmStep_ambiguous_auto (sess : Session) (msg : String)
    (db : Option (Option String)) (sched : SchedState) (sender : String) (k : Nat)
    (hny : pyLowerStrip msg ∉ yesReplies) (hnn : pyLowerStrip msg ∉ noReplies)
    (hA : sess.confirmation_attempts = some k) (hge : k + 1 ≥ 3) :
    confirmStep sess msg db sched sender =
      ⟨{ sess with profile_confirmed := true, confirmation_attempts := some 0 },
        sched, true, true, ConfirmReply.autoConfirm⟩ := by
  simp [confirmStep, hny, hnn, hA, hge]

/-- C6: three consecutive ambiguous replies auto-confirm the profile.
The first two turns only increment the attempt counter and re-prompt
(no durable write, no plan generation, session otherwise unchanged, so the
sub-protocol stays active); the third turn sets profile_confirmed, resets
the counter to 0, calls mark_profile_completed, and spawns plan
generation — so across the three turns the durable completion mark and
the plan generation each happen exactly once, on the third turn. -/
theorem three_ambiguous_replies_auto_confirm (sess : Session)
    (m1 m2 m3 : String) (db : Option (Option String)) (sched : SchedState)
    (sender : String)
    (hstage : sess.onboarding_step = "done")
    (hcomp : sess.profile_completed = true)
    (hconf : sess.profile_confirmed = false)
    (hA : sess.confirmation_attempts = none ∨ sess.confirmation_attempts = some 0)
    (h1y : pyLowerStrip m1 ∉ yesReplies) (h1n : pyLowerStrip m1 ∉ noReplies)
    (h2y : pyLowerStrip m2 ∉ yesReplies) (h2n : pyLowerStrip m2 ∉ noReplies)
    (h3y : pyLowerStrip m3 ∉ yesReplies) (h3n : pyLowerStrip m3 ∉ noReplies) :
    confirmStep sess m1 db sched sender =
      ⟨{ sess with confirmation_attempts := some 1 }, sched, false, false,
        ConfirmReply.rePrompt⟩ ∧
    confirmStep { sess with confirmation_attempts := some 1 } m2 db sched sender =
      ⟨{ sess with confirmation_attempts := some 2 }, sched, false, false,
        ConfirmReply.rePrompt⟩ ∧
    confirmStep { sess with confirmation_attempts := some 2 } m3 db sched sender =
      ⟨{ sess with profile_confirmed := true, confirmation_attempts := some 0 },
        sched, true, true, ConfirmReply.autoConfirm⟩ := by
  refine ⟨?_, ?_, ?_⟩
  · rcases hA with hA | hA
    · exact confirmStep_ambiguous_first sess m1 db sched sender h1y h1n hA
    · exact confirmStep_ambiguous_again sess m1 db sched sender 0 h1y h1n hA
        (by norm_num)
  · have := confirmStep_ambiguous_again { sess with confirmation_attempts := some 1 }
      m2 db sched sender 1 h2y h2n rfl (by norm_num)
    simpa using this
  · have := confirmStep_ambiguous_auto { sess with confirmation_attempts := some 2 }
      m3 db sched sender 2 h3y h3n rfl (by norm_num)
    simpa using this

/-- C6 (witness): three concrete ambiguous replies on a concrete completed,
unconfirmed session. -/
theorem three_ambiguous_replies_auto_confirm_witness :
    (sampleDone.onboarding_step = "done" ∧ sampleDone.profile_completed = true ∧
     sampleDone.profile_confirmed = false ∧
     pyLowerStrip "hmm" ∉ yesReplies ∧ pyLowerStrip "hmm" ∉ noReplies ∧
     pyLowerStrip "dunno" ∉ yesReplies ∧ pyLowerStrip "dunno" ∉ noReplies ∧
     pyLowerStrip "perhaps" ∉ yesReplies ∧ pyLowerStrip "perhaps" ∉ noReplies) ∧
    (confirmStep sampleDone "hmm" none ⟨true, []⟩ "p" =
      ⟨{ sampleDone with confirmation_attempts := some 1 }, ⟨true, []⟩, false, false,
        ConfirmReply.rePrompt⟩ ∧
    confirmStep { sampleDone with confirmation_attempts := some 1 } "dunno" none
      ⟨true, []⟩ "p" =
      ⟨{ sampleDone with confirmation_attempts := some 2 }, ⟨true, []⟩, false, false,
        ConfirmReply.rePrompt⟩ ∧
    confirmStep { sampleDone with confirmation_attempts := some 2 } "perhaps" none
      ⟨true, []⟩ "p" =
      ⟨{ sampleDone with profile_confirmed := true, confirmation_attempts := some 0 },
        ⟨true, []⟩, true, true, ConfirmReply.autoConfirm⟩) :=
  ⟨⟨rfl, rfl, rfl, by decide, by decide, by decide, by decide, by decide, by decide⟩,
   three_ambiguous_replies_auto_confirm sampleDone "hmm" "dunno" "perhaps" none
     ⟨true, []⟩ "p" rfl rfl rfl (Or.inl rfl) (by decide) (by decide) (by decide)
     (by decide) (by decide) (by decide)⟩


/-- A workout_prefs session that has already stored exercises_to_avoid. -/
def sampleAvoid : Session :=
  ⟨"workout_prefs", some "Dev", some "30", some "M", some "80kg", some "180cm",
   none, some "strength", some "None", some "None", some "None", some "Veg",
   some "Active", some "Low", none, none, none, some "burpees", false, false,
   none⟩

/-- C7 (counterexample): a workout_prefs turn whose extraction yields a
null exercises_to_avoid DOES erase the previously stored non-null value —
line 3155 overwrites the field unconditionally with the extracted value or
"None", so the stored "burpees" becomes "None". -/
theorem null_extraction_erases_avoid_field :
    sampleAvoid.exercises_to_avoid = some "burpees" ∧
    (⟨some "45 minutes", some "Gym", none, none⟩ : WorkoutExtract).exercises_to_avoid
      = none ∧
    (workoutPrefsStep sampleAvoid "45 minutes in the gym"
        ⟨some "45 minutes", some "Gym", none, none⟩).session.exercises_to_avoid =
      some "None" :=
  ⟨rfl, rfl, rfl⟩

/-- C7 (amended): the truthiness-guarded merges never overwrite an existing
field with a null extraction — name, age and gender in the basic merge
(app.py 4084-4089), weight, height and fitness_goal in the personalize
merge (2947-2952), diet_preference, activity_level and stress_level in
the lifestyle merge (3081-3086), and workout_duration, workout_location
and workout_time in the workout_prefs merge (3147-3152; time provided a
truthy value is already stored, else the "Flexible" default applies).
But two merges are NOT guarded: the health-stage fields
medical_conditions, injuries and allergies (3021-3023) and
exercises_to_avoid (3155) are each overwritten unconditionally with the
newly extracted value or the string "None", so on those fields a null
extraction erases a previously stored non-null value. -/
theorem merge_preserves_guarded_fields (sess : Session)
    (nm ag ge w h g di ac st me inj al : Option String) (wd : WorkoutExtract)
    (hnm : truthy nm = false) (hag : truthy ag = false) (hge : truthy ge = false)
    (hw : truthy w = false) (hh : truthy h = false) (hg : truthy g = false)
    (hdi : truthy di = false) (hac : truthy ac = false) (hst : truthy st = false)
    (hd : truthy wd.workout_duration = false)
    (hl : truthy wd.workout_location = false)
    (ht : truthy wd.workout_time = false)
    (hwt : truthy sess.workout_time = true) :
    (basicMergeStep sess nm ag ge).name = sess.name ∧
    (basicMergeStep sess nm ag ge).age = sess.age ∧
    (basicMergeStep sess nm ag ge).gender = sess.gender ∧
    (personalizeMergeStep sess w h g).weight = sess.weight ∧
    (personalizeMergeStep sess w h g).height = sess.height ∧
    (personalizeMergeStep sess w h g).fitness_goal = sess.fitness_goal ∧
    (lifestyleMergeStep sess di ac st).diet_preference = sess.diet_preference ∧
    (lifestyleMergeStep sess di ac st).activity_level = sess.activity_level ∧
    (lifestyleMergeStep sess di ac st).stress_level = sess.stress_level ∧
    (workoutPrefsMerge sess wd).workout_duration = sess.workout_duration ∧
    (workoutPrefsMerge sess wd).workout_location = sess.workout_location ∧
    (workoutPrefsMerge sess wd).workout_time = sess.workout_time ∧
    (healthUpdateStep sess me inj al).medical_conditions = some (pyOr me "None") ∧
    (healthUpdateStep sess me inj al).injuries = some (pyOr inj "None") ∧
    (healthUpdateStep sess me inj al).allergies = some (pyOr al "None") ∧
    (workoutPrefsMerge sess wd).exercises_to_avoid =
      some (pyOr wd.exercises_to_avoid "None") := by
  simp [basicMergeStep, personalizeMergeStep, lifestyleMergeStep, healthUpdateStep,
    workoutPrefsMerge, hnm, hag, hge, hw, hh, hg, hdi, hac, hst, hd, hl, ht, hwt]

/-- C7 (amended, witness): on a concrete session with an all-null
extraction, every guarded field survives, while the health fields and
exercises_to_avoid are overwritten with "None". -/
theorem merge_preserves_guarded_fields_witness :
    (truthy (none : Option String) = false ∧
     truthy sampleDone.workout_time = true) ∧
    ((basicMergeStep sampleDone none none none).name = sampleDone.name ∧
    (basicMergeStep sampleDone none none none).age = sampleDone.age ∧
    (basicMergeStep sampleDone none none none).gender = sampleDone.gender ∧
    (personalizeMergeStep sampleDone none none none).weight = sampleDone.weight ∧
    (personalizeMergeStep sampleDone none none none).height = sampleDone.height ∧
    (personalizeMergeStep sampleDone none none none).fitness_goal =
      sampleDone.fitness_goal ∧
    (lifestyleMergeStep sampleDone none none none).diet_preference =
      sampleDone.diet_preference ∧
    (lifestyleMergeStep sampleDone none none none).activity_level =
      sampleDone.activity_level ∧
    (lifestyleMergeStep sampleDone none none none).stress_level =
      sampleDone.stress_level ∧
    (workoutPrefsMerge sampleDone ⟨none, none, none, none⟩).workout_duration =
      sampleDone.workout_duration ∧
    (workoutPrefsMerge sampleDone ⟨none, none, none, none⟩).workout_location =
      sampleDone.workout_location ∧
    (workoutPrefsMerge sampleDone ⟨none, none, none, none⟩).workout_time =
      sampleDone.workout_time ∧
    (healthUpdateStep sampleDone none none none).medical_conditions =
      some (pyOr none "None") ∧
    (healthUpdateStep sampleDone none none none).injuries =
      some (pyOr none "None") ∧
    (healthUpdateStep sampleDone none none none).allergies =
      some (pyOr none "None") ∧
    (workoutPrefsMerge sampleDone ⟨none, none, none, none⟩).exercises_to_avoid =
      some (pyOr (⟨none, none, none, none⟩ : WorkoutExtract).exercises_to_avoid
        "None")) :=
  ⟨⟨rfl, rfl⟩,
   merge_preserves_guarded_fields sampleDone none none none none none none none
     none none none none none ⟨none, none, none, none⟩
     rfl rfl rfl rfl rfl rfl rfl rfl rfl rfl rfl rfl rfl⟩

end Nexifit
